import Mathlib

/-!
Verification of the deferred grading subsystem of the scenario server.

The definitions below are a shallow embedding of
`scenario_server/grading/deferred_grading.py` and the deferred-grading
endpoints of `scenario_server/endpoints.py`:

* `DeferredGradingStatus`, `DeferredGradingResult`, `DeferredGradingState`
  embed the enum and the two dataclasses (deferred_grading.py lines 15-31).
* `InMemGradingStorage` embeds the volatile backend (lines 101-133); the
  Python `dict` is modelled as an association list with unique keys.
* `PostGresGradingStorage` embeds the durable backend (lines 136-279); the
  connection pool is modelled by a Boolean (`pool = false` models
  `self.pool is None`) and the database table by an association list of
  rows.  `_result_pack` / `_result_unpack` (lines 141-158) are embedded
  via the `PackedResult` payload type: `nullPayload` stands for the JSON
  string `{"result": null}` and `listPayload xs` for
  `{"result": [asdict(x) for x in xs]}` (JSON encode/decode round-trips,
  so the JSON string layer is represented by the decoded payload).
* `process_deferred_grading` embeds the background job (lines 282-309); the
  grading function is external and may raise, so its outcome is an input of
  type `Except String (List SubmissionScore)` (error = the exception text).
* `deferred_grading_endpoint`, `deferred_grading_status_endpoint` and
  `deferred_grading_result_endpoint` embed the three HTTP handlers
  (endpoints.py lines 80-141, 144-162, 165-201).  `HttpError` models the
  raised `HTTPException`s (404 / 500 / 202) with their detail strings.

Python exceptions raised by storage operations are modelled by `PyError`;
an operation of the embedded backends returns its possibly-updated state
together with `Except PyError result`.
-/

/-- Modelled from the spec: `SubmissionScore` lives in
`scenario_server/entities.py`, which is not part of the sources at hand.
Per the spec (Section 3, "Score"), one graded answer carries a
`scenario_id` (string), a `correct` flag (boolean) and `details`, a
sequence of named feedback entries, each a name/value pair of scalar
value (scalars are represented here as strings).  The dataclass is flat,
so `asdict` followed by keyword reconstruction is the identity on it. -/
structure SubmissionScore where
  scenario_id : String
  correct : Bool
  details : List (String × String)
deriving DecidableEq

/-- Embeds `DeferredGradingStatus` (deferred_grading.py lines 15-18), a
string-valued enum. -/
inductive DeferredGradingStatus where
  | COMPLETED
  | FAILED
  | PROCESSING
deriving DecidableEq

/-- Embeds the `.value` of the string enum: `"completed"`, `"failed"`,
`"processing"`. -/
def DeferredGradingStatus.value : DeferredGradingStatus → String
  | .COMPLETED => "completed"
  | .FAILED => "failed"
  | .PROCESSING => "processing"

/-- Embeds the Python exceptions the storage layer can raise: `KeyError`
(missing id), `TypeError` (iterating `None` in `_result_unpack`),
`AttributeError` (`self.pool is None` and `.acquire` is accessed), and
`ValueError` (an unknown enum value), each with its message. -/
inductive PyError where
  | keyError (msg : String)
  | typeError (msg : String)
  | attributeError (msg : String)
  | valueError (msg : String)
deriving DecidableEq

deriving instance DecidableEq for Except

/-- Embeds the constructor `DeferredGradingStatus(str)`: returns the enum
member whose value matches, raises `ValueError` otherwise. -/
def statusOfString (s : String) : Except PyError DeferredGradingStatus :=
  if s = "completed" then .ok .COMPLETED
  else if s = "failed" then .ok .FAILED
  else if s = "processing" then .ok .PROCESSING
  else .error (.valueError (s ++ " is not a valid DeferredGradingStatus"))

/-- Embeds the dataclass `DeferredGradingResult` (lines 21-25).  The Python
field `result: list[SubmissionScore]` in fact also holds `None` (the
submit endpoint stores `result=None`), so it is modelled as an `Option`:
`none` is Python `None`, `some []` is the empty list. -/
structure DeferredGradingResult where
  result : Option (List SubmissionScore)
  status : DeferredGradingStatus
  error : Option String
deriving DecidableEq

/-- Embeds the dataclass `DeferredGradingState` (lines 28-31). -/
structure DeferredGradingState where
  grading_id : String
  status : DeferredGradingStatus
deriving DecidableEq

/-- Association-list lookup, modelling Python `d[k]` /
`row = SELECT ... WHERE grading_id = $1` over a unique-key list. -/
def lookupRec {V : Type} : List (String × V) → String → Option V
  | [], _ => none
  | p :: rest, g => if p.1 = g then some p.2 else lookupRec rest g

/-- Association-list key removal, modelling `del d[k]` / SQL `DELETE`. -/
def eraseRec {V : Type} : List (String × V) → String → List (String × V)
  | [], _ => []
  | p :: rest, g => if p.1 = g then eraseRec rest g else p :: eraseRec rest g

/-- Association-list upsert, modelling `d[k] = v` / `INSERT ... ON CONFLICT
DO UPDATE`. -/
def insertRec {V : Type} (l : List (String × V)) (g : String) (v : V) :
    List (String × V) :=
  (g, v) :: eraseRec l g

/-- Membership test, modelling `k in d` / `SELECT EXISTS(...)`. -/
def containsRec {V : Type} (l : List (String × V)) (g : String) : Bool :=
  (lookupRec l g).isSome

/-- Embeds the volatile backend `InMemGradingStorage` (deferred_grading.py
lines 101-133): a process-local mapping from grading id to record. -/
structure InMemGradingStorage where
  storage : List (String × DeferredGradingResult)
deriving DecidableEq

/-- Embeds `InMemGradingStorage.store` (lines 129-130):
`self.storage[grading_id] = data`, an upsert that never raises. -/
def InMemGradingStorage.store (s : InMemGradingStorage) (grading_id : String)
    (data : DeferredGradingResult) :
    InMemGradingStorage × Except PyError Unit :=
  (⟨insertRec s.storage grading_id data⟩, .ok ())

/-- Embeds `InMemGradingStorage.fetch` (lines 108-109):
`return self.storage[grading_id]`, raising `KeyError` when absent. -/
def InMemGradingStorage.fetch (s : InMemGradingStorage) (grading_id : String) :
    InMemGradingStorage × Except PyError DeferredGradingResult :=
  match lookupRec s.storage grading_id with
  | some r => (s, .ok r)
  | none => (s, .error (.keyError grading_id))

/-- Embeds `InMemGradingStorage.state` (lines 125-127): look the record up
(`KeyError` when absent) and project id and status. -/
def InMemGradingStorage.state (s : InMemGradingStorage) (grading_id : String) :
    InMemGradingStorage × Except PyError DeferredGradingState :=
  match lookupRec s.storage grading_id with
  | some r => (s, .ok ⟨grading_id, r.status⟩)
  | none => (s, .error (.keyError grading_id))

/-- Embeds `InMemGradingStorage.valid` (lines 132-133):
`return grading_id in self.storage`. -/
def InMemGradingStorage.valid (s : InMemGradingStorage) (grading_id : String) :
    InMemGradingStorage × Except PyError Bool :=
  (s, .ok (containsRec s.storage grading_id))

/-- Embeds the loop body of `InMemGradingStorage.prune` (lines 117-121):
for each id in order, if present, increment the count and delete it. -/
def pruneGo : List String → InMemGradingStorage → Nat →
    InMemGradingStorage × Nat
  | [], st, c => (st, c)
  | g :: rest, st, c =>
    if containsRec st.storage g then
      pruneGo rest ⟨eraseRec st.storage g⟩ (c + 1)
    else
      pruneGo rest st c

/-- Embeds `InMemGradingStorage.prune` (lines 111-123): a single id is
wrapped into a one-element batch, then the loop runs; the count of ids
actually deleted is returned.  Never raises. -/
def InMemGradingStorage.prune (s : InMemGradingStorage)
    (grading_id : Sum String (List String)) :
    InMemGradingStorage × Except PyError Nat :=
  let grading_ids := match grading_id with
    | .inl g => [g]
    | .inr gs => gs
  let r := pruneGo grading_ids s 0
  (r.1, .ok r.2)

/-- Embeds the JSON payload produced by
`PostGresGradingStorage._result_pack` (lines 141-151): `nullPayload`
stands for the string `json.dumps({"result": null})` and `listPayload xs`
for `json.dumps({"result": [asdict(x) for x in xs]})`.  Since
`json.loads` inverts `json.dumps` and `SubmissionScore(**asdict(x)) = x`
for the flat dataclass, the payload is represented decoded. -/
inductive PackedResult where
  | nullPayload
  | listPayload (xs : List SubmissionScore)
deriving DecidableEq

/-- Embeds `_result_pack` (lines 141-151): a truthy (non-`None`, non-empty)
result list is packed as a list payload; `None` and `[]` are both falsy
and are packed as `{"result": null}`. -/
def result_pack (result : Option (List SubmissionScore)) : PackedResult :=
  match result with
  | some (x :: xs) => .listPayload (x :: xs)
  | _ => .nullPayload

/-- Embeds `_result_unpack` (lines 153-158): reads `result_obj["result"]`
and builds the score list by iterating over it.  When the stored payload
is `{"result": null}` the iteration is over `None` and raises
`TypeError`. -/
def result_unpack (result_str : PackedResult) :
    Except PyError (List SubmissionScore) :=
  match result_str with
  | .nullPayload => .error (.typeError "NoneType object is not iterable")
  | .listPayload xs => .ok xs

/-- Embeds one row of the `deferred_grading` table (see the
`CREATE TABLE` at lines 170-178): status string, serialized result
payload, error text.  Timestamps carry no spec-relevant content and are
omitted. -/
structure PGRow where
  status : String
  result : PackedResult
  error : Option String
deriving DecidableEq

/-- Embeds the durable backend `PostGresGradingStorage` (lines 136-279).
`pool = false` models `self.pool is None` (no connection pool yet);
`db` models the contents of the `deferred_grading` table, which outlives
the object. -/
structure PostGresGradingStorage where
  pool : Bool
  db : List (String × PGRow)
deriving DecidableEq

/-- Embeds `_connect` (lines 160-161): establish the connection pool. -/
def PostGresGradingStorage.connectPool (s : PostGresGradingStorage) :
    PostGresGradingStorage :=
  { s with pool := true }

/-- Embeds `PostGresGradingStorage.fetch` (lines 185-205): lazily connect
when the pool is absent, select the row (`KeyError` when missing), unpack
the result payload (this raises `TypeError` on a null payload), and parse
the status string. -/
def PostGresGradingStorage.fetch (s : PostGresGradingStorage)
    (grading_id : String) :
    PostGresGradingStorage × Except PyError DeferredGradingResult :=
  let s1 := if s.pool then s else s.connectPool
  match lookupRec s1.db grading_id with
  | none => (s1, .error (.keyError (grading_id ++ " not found")))
  | some row =>
    match result_unpack row.result with
    | .error e => (s1, .error e)
    | .ok sc =>
      match statusOfString row.status with
      | .error e => (s1, .error e)
      | .ok st => (s1, .ok ⟨some sc, st, row.error⟩)

/-- Embeds `PostGresGradingStorage.state` (lines 225-240): lazily connect,
select only the status column (`KeyError` when missing) and parse it. -/
def PostGresGradingStorage.state (s : PostGresGradingStorage)
    (grading_id : String) :
    PostGresGradingStorage × Except PyError DeferredGradingState :=
  let s1 := if s.pool then s else s.connectPool
  match lookupRec s1.db grading_id with
  | none => (s1, .error (.keyError (grading_id ++ " not found")))
  | some row =>
    match statusOfString row.status with
    | .error e => (s1, .error e)
    | .ok st => (s1, .ok ⟨grading_id, st⟩)

/-- Embeds `PostGresGradingStorage.store` (lines 242-269): lazily connect,
pack the result, and upsert the row (`INSERT ... ON CONFLICT (grading_id)
DO UPDATE`).  Never raises. -/
def PostGresGradingStorage.store (s : PostGresGradingStorage)
    (grading_id : String) (data : DeferredGradingResult) :
    PostGresGradingStorage × Except PyError Unit :=
  let s1 := if s.pool then s else s.connectPool
  let row : PGRow := ⟨data.status.value, result_pack data.result, data.error⟩
  ({ s1 with db := insertRec s1.db grading_id row }, .ok ())

/-- Embeds `PostGresGradingStorage.valid` (lines 271-279).  Unlike `fetch`,
`state` and `store`, this method has no lazy-connect guard: when
`self.pool` is `None`, `self.pool.acquire()` raises `AttributeError`. -/
def PostGresGradingStorage.valid (s : PostGresGradingStorage)
    (grading_id : String) :
    PostGresGradingStorage × Except PyError Bool :=
  if s.pool then (s, .ok (containsRec s.db grading_id))
  else (s, .error (.attributeError "NoneType object has no attribute acquire"))

/-- Embeds `PostGresGradingStorage.prune` (lines 207-223): an empty batch
returns 0 before any pool use; otherwise the rows whose key is among the
supplied ids are deleted and counted.  Like `valid`, this method has no
lazy-connect guard, so a non-empty batch with no pool raises
`AttributeError`. -/
def PostGresGradingStorage.prune (s : PostGresGradingStorage)
    (grading_id : Sum String (List String)) :
    PostGresGradingStorage × Except PyError Nat :=
  let grading_ids := match grading_id with
    | .inl g => [g]
    | .inr gs => gs
  if grading_ids.isEmpty then (s, .ok 0)
  else if s.pool then
    let deleted := (s.db.filter (fun p => grading_ids.contains p.1)).length
    ({ s with db := s.db.filter (fun p => !(grading_ids.contains p.1)) },
     .ok deleted)
  else (s, .error (.attributeError "NoneType object has no attribute acquire"))

/-- Embeds the abstract base class `DeferredGradingStorage`
(deferred_grading.py lines 34-98): the capability interface the endpoints
are written against, bundled as explicit state-passing operations over a
backend state type. -/
structure DeferredGradingStorage (σ : Type) where
  store : σ → String → DeferredGradingResult → σ × Except PyError Unit
  fetch : σ → String → σ × Except PyError DeferredGradingResult
  state : σ → String → σ × Except PyError DeferredGradingState
  valid : σ → String → σ × Except PyError Bool
  prune : σ → Sum String (List String) → σ × Except PyError Nat

/-- The volatile backend as an instance of the capability interface. -/
def inMemOps : DeferredGradingStorage InMemGradingStorage where
  store := InMemGradingStorage.store
  fetch := InMemGradingStorage.fetch
  state := InMemGradingStorage.state
  valid := InMemGradingStorage.valid
  prune := InMemGradingStorage.prune

/-- The durable backend as an instance of the capability interface. -/
def pgOps : DeferredGradingStorage PostGresGradingStorage where
  store := PostGresGradingStorage.store
  fetch := PostGresGradingStorage.fetch
  state := PostGresGradingStorage.state
  valid := PostGresGradingStorage.valid
  prune := PostGresGradingStorage.prune

/-- Embeds the pydantic model `Answer` (endpoints.py lines 60-71). -/
structure Answer where
  scenario_id : String
  answer : String
deriving DecidableEq

/-- Embeds the pydantic model `Submission` (endpoints.py lines 74-77). -/
structure Submission where
  submission : List Answer
deriving DecidableEq

/-- Embeds the `HTTPException`s raised by the deferred-grading endpoints,
with their status code (constructor) and `detail` string:
`notFound` is 404, `internalError` is 500, `accepted` is the 202
"not ready yet" signal of the result endpoint. -/
inductive HttpError where
  | notFound (detail : String)
  | internalError (detail : String)
  | accepted (detail : String)
deriving DecidableEq

/-- The record the submit endpoint synchronously stores before returning
(endpoints.py lines 94-101): `result=None`, `status=PROCESSING`,
`error=None`. -/
def submitProcessingRecord : DeferredGradingResult :=
  ⟨none, .PROCESSING, none⟩

/-- The record the submit endpoint stores when scheduling the background
task raises (endpoints.py lines 129-136): `result=None`, `status=FAILED`,
`error=str(e)`. -/
def submitFailureRecord (msg : String) : DeferredGradingResult :=
  ⟨none, .FAILED, some msg⟩

/-- The record the background job writes back (deferred_grading.py lines
290-308): on success `result`, `COMPLETED`, `error=None`; on an exception
`result=[]`, `FAILED`, `error=str(e)`. -/
def writebackRecord (outcome : Except String (List SubmissionScore)) :
    DeferredGradingResult :=
  match outcome with
  | .ok result => ⟨some result, .COMPLETED, none⟩
  | .error e => ⟨some [], .FAILED, some e⟩

/-- Embeds `process_deferred_grading` (deferred_grading.py lines 282-309).
The grading call `grade_responses(grader, data)` is external and opaque;
its outcome is the input `graderOutcome` (`.error e` models the grading
function raising an exception with text `e`).  Either way the job writes
the corresponding terminal record back to storage and returns normally:
the `try/except Exception` around the grading call means no exception
from the grading function escapes this function, which is reflected in
the total (non-`Except`) return type. -/
def process_deferred_grading (grade_id : String)
    (graderOutcome : Except String (List SubmissionScore))
    (storage : InMemGradingStorage) : InMemGradingStorage :=
  (storage.store grade_id (writebackRecord graderOutcome)).1

/-- A scheduled background task: the `BackgroundTask` built by the submit
endpoint (endpoints.py lines 112-118), identified by the grading id it
will write back to and the submission it grades. -/
structure BackgroundJob where
  grading_id : String
  data : Submission
deriving DecidableEq

/-- Embeds the submit endpoint `deferred_grading` (endpoints.py lines
80-141) over an arbitrary backend.  `registered` models the keys of
`REGISTERED_SCENARIO_HANDLERS`; `grading_id` is the freshly generated
`uuid4` string; `scheduleResult` models the second `try` block (attribute
lookup of the handler's grading function and `BackgroundTask`
construction), which in the source can only fail on an environmental
fault.  On success the caller receives the `PROCESSING` state and the
scheduled background task; if the synchronous initial store raises, the
caller receives the 500 `"deferred storage failed"` error and no task is
scheduled (the `Except.error` carries no `BackgroundJob`). -/
def deferred_grading_endpoint {σ : Type} (ops : DeferredGradingStorage σ)
    (registered : List String) (scenario_set_id : String) (data : Submission)
    (grading_id : String) (scheduleResult : Except String Unit) (s : σ) :
    σ × Except HttpError (DeferredGradingState × BackgroundJob) :=
  if scenario_set_id ∈ registered then
    match ops.store s grading_id submitProcessingRecord with
    | (s1, .error _) => (s1, .error (.internalError "deferred storage failed"))
    | (s1, .ok _) =>
      match scheduleResult with
      | .ok _ => (s1, .ok (⟨grading_id, .PROCESSING⟩, ⟨grading_id, data⟩))
      | .error e =>
        let s2 := (ops.store s1 grading_id (submitFailureRecord e)).1
        (s2, .error (.internalError ("grading failed " ++ scenario_set_id)))
  else
    (s, .error (.notFound ("no scenario set " ++ scenario_set_id)))

/-- Embeds the status endpoint `deferred_grading_status` (endpoints.py
lines 144-162): `storage.state`, with `KeyError` mapped to 404 and any
other exception to 500. -/
def deferred_grading_status_endpoint {σ : Type}
    (ops : DeferredGradingStorage σ) (grading_id : String) (s : σ) :
    σ × Except HttpError DeferredGradingState :=
  match ops.state s grading_id with
  | (s1, .ok st) => (s1, .ok st)
  | (s1, .error (.keyError _)) =>
    (s1, .error (.notFound ("grading id not found: " ++ grading_id)))
  | (s1, .error _) =>
    (s1, .error (.internalError
      ("failed to determine status of " ++ grading_id)))

/-- String interpolation of an optional error, modelling the f-string
`f"grading failed: {e.error}"` where `e.error` may be `None`. -/
def optErrStr : Option String → String
  | some m => m
  | none => "None"

/-- Embeds the result endpoint `deferred_grading_result` (endpoints.py
lines 165-201).  `state` is queried first: `KeyError` maps to 404, any
other exception to the generic 500 `"failed to fetch result <id>"`.  A
`PROCESSING` record yields the 202 `"grading still progressing"` signal.
A `FAILED` record is fetched and its captured error is surfaced in a 500
`"grading failed: <error>"`; a `COMPLETED` record is fetched and its score
list returned.  An exception raised by `fetch` itself is mapped by the
same handlers (`KeyError` to 404, otherwise the generic 500). -/
def deferred_grading_result_endpoint {σ : Type}
    (ops : DeferredGradingStorage σ) (grading_id : String) (s : σ) :
    σ × Except HttpError (Option (List SubmissionScore)) :=
  match ops.state s grading_id with
  | (s1, .error (.keyError _)) =>
    (s1, .error (.notFound ("grading id not found: " ++ grading_id)))
  | (s1, .error _) =>
    (s1, .error (.internalError ("failed to fetch result " ++ grading_id)))
  | (s1, .ok gs) =>
    if gs.status = .PROCESSING then
      (s1, .error (.accepted "grading still progressing"))
    else if gs.status = .FAILED then
      match ops.fetch s1 grading_id with
      | (s2, .ok r) =>
        (s2, .error (.internalError ("grading failed: " ++ optErrStr r.error)))
      | (s2, .error (.keyError _)) =>
        (s2, .error (.notFound ("grading id not found: " ++ grading_id)))
      | (s2, .error _) =>
        (s2, .error (.internalError ("failed to fetch result " ++ grading_id)))
    else
      match ops.fetch s1 grading_id with
      | (s2, .ok r) => (s2, .ok r.result)
      | (s2, .error (.keyError _)) =>
        (s2, .error (.notFound ("grading id not found: " ++ grading_id)))
      | (s2, .error _) =>
        (s2, .error (.internalError ("failed to fetch result " ++ grading_id)))

/-- The state of the deferred-grading system over the volatile backend:
the storage contents together with the scheduled-but-not-yet-run
background tasks (each recorded with the grader outcome it will produce,
since the grading function is external and fixed per submission). -/
structure SystemState where
  storage : InMemGradingStorage
  pending : List (String × Except String (List SubmissionScore))

/-- The steps the system can take, mirroring the write sites of the
source.  `submit` is the success path of the submit endpoint (endpoints.py
lines 90-126): a fresh uuid4 id (modelled as an id not already present),
a synchronous `PROCESSING` store, and a scheduled background task.
`submitScheduleFail` is its failure path (lines 127-141): after the
`PROCESSING` store the scheduling block raises, a `FAILED` record is
stored and no task is scheduled.  `writeback` is a scheduled background
task running `process_deferred_grading` (deferred_grading.py lines
282-309) and leaving the pending set.  Status/result reads do not mutate
state and need no step. -/
inductive SysStep : SystemState → SystemState → Prop
  | submit (s : SystemState) (gid : String)
      (outcome : Except String (List SubmissionScore))
      (fresh : lookupRec s.storage.storage gid = none) :
      SysStep s ⟨(s.storage.store gid submitProcessingRecord).1,
                 s.pending ++ [(gid, outcome)]⟩
  | submitScheduleFail (s : SystemState) (gid : String) (msg : String)
      (fresh : lookupRec s.storage.storage gid = none) :
      SysStep s ⟨(((s.storage.store gid submitProcessingRecord).1).store gid
                    (submitFailureRecord msg)).1,
                 s.pending⟩
  | writeback (s : SystemState) (gid : String)
      (outcome : Except String (List SubmissionScore))
      (pre post : List (String × Except String (List SubmissionScore)))
      (hq : s.pending = pre ++ (gid, outcome) :: post) :
      SysStep s ⟨process_deferred_grading gid outcome s.storage, pre ++ post⟩

/-- System invariant: every scheduled background task belongs to an id
whose stored record is still `PROCESSING` (the submit endpoint stores the
`PROCESSING` record before scheduling), and no two scheduled tasks share
an id (each submission generates a fresh id and schedules exactly one
task). -/
def SysInv (s : SystemState) : Prop :=
  (∀ p ∈ s.pending, ∃ r, lookupRec s.storage.storage p.1 = some r ∧
      r.status = .PROCESSING)
  ∧ (s.pending.map Prod.fst).Nodup

/-- Modelled from the spec: a storage backend whose synchronous write
fails (Section 7 error taxonomy, StorageFailure: "the backend is
unreachable or a write/read fails — at submission time this is fatal to
the submit call").  The concrete failure is environmental and outside the
sources; every operation reports the backend unavailable. -/
def unavailableStorage : DeferredGradingStorage Unit where
  store := fun s _ _ => (s, .error (.valueError "backend unavailable"))
  fetch := fun s _ => (s, .error (.valueError "backend unavailable"))
  state := fun s _ => (s, .error (.valueError "backend unavailable"))
  valid := fun s _ => (s, .error (.valueError "backend unavailable"))
  prune := fun s _ => (s, .error (.valueError "backend unavailable"))

/-- The status-payload invariant as the claim states it: `COMPLETED`
implies a non-null result and absent error; `FAILED` implies an empty
result and a present, non-empty error description; `PROCESSING` implies
neither result nor error present. -/
def statusPayloadClaim (r : DeferredGradingResult) : Prop :=
  (r.status = .COMPLETED → r.result ≠ none ∧ r.error = none)
  ∧ (r.status = .FAILED →
      r.result.getD [] = [] ∧ r.error ≠ none ∧ r.error.getD "" ≠ "")
  ∧ (r.status = .PROCESSING → r.result = none ∧ r.error = none)

/-- The amended status-payload invariant: identical except that the
`FAILED` error description is only required to be present (non-null) —
it is `str(e)` of the raised exception and may be the empty string when
the exception carries no message. -/
def statusPayloadAmended (r : DeferredGradingResult) : Prop :=
  (r.status = .COMPLETED → r.result ≠ none ∧ r.error = none)
  ∧ (r.status = .FAILED → r.result.getD [] = [] ∧ r.error ≠ none)
  ∧ (r.status = .PROCESSING → r.result = none ∧ r.error = none)

/-- The record-writing sites of the system: the submit endpoint's initial
write (endpoints.py lines 94-101), its scheduling-failure write (lines
129-136), and the background write-back for either grader outcome
(deferred_grading.py lines 290-308). -/
inductive SystemWrite where
  | submitInit
  | submitScheduleFailure (msg : String)
  | backgroundOutcome (outcome : Except String (List SubmissionScore))

/-- The record each write site stores. -/
def SystemWrite.record : SystemWrite → DeferredGradingResult
  | .submitInit => submitProcessingRecord
  | .submitScheduleFailure msg => submitFailureRecord msg
  | .backgroundOutcome o => writebackRecord o

theorem lookup_eraseRec {V : Type} (l : List (String × V)) (g g2 : String) :
    lookupRec (eraseRec l g) g2 = if g2 = g then none else lookupRec l g2 := by
  induction l with
  | nil => simp [eraseRec, lookupRec]
  | cons p rest ih =>
    by_cases h1 : p.1 = g
    · by_cases h2 : g2 = g
      · subst h2
        simp [eraseRec, h1, ih]
      · have hne : ¬ g = g2 := fun he => h2 he.symm
        simp [eraseRec, lookupRec, h1, ih, h2, hne]
    · by_cases h2 : p.1 = g2
      · have hg : ¬ g2 = g := fun he => h1 (h2.trans he)
        simp [eraseRec, lookupRec, h1, h2, hg]
      · simp [eraseRec, lookupRec, h1, h2, ih]

theorem lookup_insertRec {V : Type} (l : List (String × V)) (g g2 : String)
    (v : V) :
    lookupRec (insertRec l g v) g2 =
      if g2 = g then some v else lookupRec l g2 := by
  by_cases h : g = g2
  · simp [insertRec, lookupRec, h]
  · have h2 : ¬ g2 = g := fun he => h he.symm
    simp [insertRec, lookupRec, h, lookup_eraseRec, h2]

theorem contains_eraseRec {V : Type} (l : List (String × V)) (g g2 : String) :
    containsRec (eraseRec l g) g2 =
      if g2 = g then false else containsRec l g2 := by
  by_cases h : g2 = g <;> simp [containsRec, lookup_eraseRec, h]

theorem sysStep_preserves_inv {s t : SystemState} (h : SysStep s t)
    (hInv : SysInv s) : SysInv t := by
  obtain ⟨hrec, hnodup⟩ := hInv
  cases h with
  | submit gid outcome fresh =>
    constructor
    · intro p hp
      rcases List.mem_append.mp hp with hold | hnew
      · obtain ⟨r, hr, hst⟩ := hrec p hold
        refine ⟨r, ?_, hst⟩
        have hne : p.1 ≠ gid := fun he => by
          rw [he] at hr; rw [fresh] at hr; exact Option.noConfusion hr
        simpa [InMemGradingStorage.store, lookup_insertRec, hne] using hr
      · rcases List.mem_singleton.mp hnew with rfl
        exact ⟨submitProcessingRecord, by
          simp [InMemGradingStorage.store, lookup_insertRec], rfl⟩
    · have hgid : gid ∉ s.pending.map Prod.fst := by
        intro hmem
        obtain ⟨p, hp, hfst⟩ := List.mem_map.mp hmem
        obtain ⟨r, hr, _⟩ := hrec p hp
        rw [hfst] at hr
        rw [fresh] at hr
        exact Option.noConfusion hr
      simp [List.nodup_append, hnodup, hgid, List.disjoint_singleton]
  | submitScheduleFail gid msg fresh =>
    refine ⟨?_, hnodup⟩
    intro p hp
    obtain ⟨r, hr, hst⟩ := hrec p hp
    refine ⟨r, ?_, hst⟩
    have hne : p.1 ≠ gid := fun he => by
      rw [he] at hr; rw [fresh] at hr; exact Option.noConfusion hr
    simpa [InMemGradingStorage.store, lookup_insertRec, hne] using hr
  | writeback gid outcome pre post hq =>
    have hsub : List.Sublist ((pre ++ post).map Prod.fst)
        (s.pending.map Prod.fst) := by
      rw [hq]
      simp only [List.map_append, List.map_cons]
      exact (List.sublist_cons_self _ _).append_left _
    have hgid : gid ∉ (pre ++ post).map Prod.fst := by
      have hnd : (s.pending.map Prod.fst).Nodup := hnodup
      rw [hq] at hnd
      simp only [List.map_append, List.map_cons, List.nodup_append,
        List.nodup_cons] at hnd
      intro hmem
      rcases List.mem_map.mp hmem with ⟨p, hp, hfst⟩
      rcases List.mem_append.mp hp with hpre | hpost
      · exact hnd.2.2 (hfst ▸ List.mem_map_of_mem Prod.fst hpre)
          (List.mem_cons_self _ _)
      · exact hnd.2.1.1 (hfst ▸ List.mem_map_of_mem Prod.fst hpost)
    constructor
    · intro p hp
      have hpmem : p ∈ s.pending := by
        rw [hq]
        rcases List.mem_append.mp hp with h1 | h2
        · exact List.mem_append.mpr (Or.inl h1)
        · exact List.mem_append.mpr (Or.inr (List.mem_cons_of_mem _ h2))
      obtain ⟨r, hr, hst⟩ := hrec p hpmem
      refine ⟨r, ?_, hst⟩
      have hne : p.1 ≠ gid := fun he =>
        hgid (he ▸ List.mem_map_of_mem Prod.fst hp)
      simpa [process_deferred_grading, InMemGradingStorage.store,
        lookup_insertRec, hne] using hr
    · exact hnodup.sublist hsub

theorem sysStep_preserves_terminal {s t : SystemState} (h : SysStep s t)
    (hInv : SysInv s) {gid : String} {r : DeferredGradingResult}
    (hr : lookupRec s.storage.storage gid = some r)
    (hterm : r.status ≠ .PROCESSING) :
    lookupRec t.storage.storage gid = some r := by
  obtain ⟨hrec, _⟩ := hInv
  cases h with
  | submit gid2 outcome fresh =>
    have hne : gid ≠ gid2 := fun he => by
      rw [he] at hr; rw [fresh] at hr; exact Option.noConfusion hr
    simpa [InMemGradingStorage.store, lookup_insertRec, hne] using hr
  | submitScheduleFail gid2 msg fresh =>
    have hne : gid ≠ gid2 := fun he => by
      rw [he] at hr; rw [fresh] at hr; exact Option.noConfusion hr
    simpa [InMemGradingStorage.store, lookup_insertRec, hne] using hr
  | writeback gid2 outcome pre post hq =>
    have hmem : (gid2, outcome) ∈ s.pending := by
      rw [hq]; exact List.mem_append.mpr (Or.inr (List.mem_cons_self _ _))
    obtain ⟨r2, hr2, hst2⟩ := hrec (gid2, outcome) hmem
    have hne : gid ≠ gid2 := fun he => by
      rw [he] at hr
      rw [hr] at hr2
      exact hterm (Option.some_injective _ hr2 ▸ hst2)
    simpa [process_deferred_grading, InMemGradingStorage.store,
      lookup_insertRec, hne] using hr

/-- C2: Terminal monotonicity.  For every grading id whose stored record
holds a terminal status (`COMPLETED` or `FAILED`, i.e. not `PROCESSING`),
any reachable sequence of system steps (further submissions, scheduling
failures, background write-backs; reads do not mutate state) leaves that
record unchanged, so every later status query returns the same terminal
status and every later result query returns the same terminal outcome
(the captured error for `FAILED`, the stored score list for
`COMPLETED`). -/
theorem terminal_monotonicity (s t : SystemState) (hInv : SysInv s)
    (hsteps : Relation.ReflTransGen SysStep s t)
    (gid : String) (r : DeferredGradingResult)
    (hr : lookupRec s.storage.storage gid = some r)
    (hterm : r.status ≠ .PROCESSING) :
    lookupRec t.storage.storage gid = some r
    ∧ (deferred_grading_status_endpoint inMemOps gid t.storage).2
        = .ok ⟨gid, r.status⟩
    ∧ (r.status = .FAILED →
        (deferred_grading_result_endpoint inMemOps gid t.storage).2
          = .error (.internalError ("grading failed: " ++ optErrStr r.error)))
    ∧ (r.status = .COMPLETED →
        (deferred_grading_result_endpoint inMemOps gid t.storage).2
          = .ok r.result) := by
  have key : SysInv t ∧ lookupRec t.storage.storage gid = some r := by
    induction hsteps with
    | refl => exact ⟨hInv, hr⟩
    | tail hst hstep ih =>
      exact ⟨sysStep_preserves_inv hstep ih.1,
             sysStep_preserves_terminal hstep ih.1 ih.2 hterm⟩
  obtain ⟨-, hlook⟩ := key
  refine ⟨hlook, ?_, ?_, ?_⟩
  · simp [deferred_grading_status_endpoint, inMemOps,
      InMemGradingStorage.state, hlook]
  · intro hf
    simp [deferred_grading_result_endpoint, inMemOps,
      InMemGradingStorage.state, InMemGradingStorage.fetch, hlook, hf]
  · intro hc
    simp [deferred_grading_result_endpoint, inMemOps,
      InMemGradingStorage.state, InMemGradingStorage.fetch, hlook, hc]

/-- Witness for terminal monotonicity: a concrete state holding a
`COMPLETED` record for `"a"` still holds it unchanged after a further
submission step for the fresh id `"b"`. -/
theorem terminal_monotonicity_witness :
    lookupRec ((InMemGradingStorage.store
        ⟨[("a", ⟨some [], .COMPLETED, none⟩)]⟩ "b"
        submitProcessingRecord).1).storage "a"
      = some ⟨some [], .COMPLETED, none⟩ :=
  (terminal_monotonicity
    ⟨⟨[("a", ⟨some [], .COMPLETED, none⟩)]⟩, []⟩
    ⟨(InMemGradingStorage.store ⟨[("a", ⟨some [], .COMPLETED, none⟩)]⟩ "b"
        submitProcessingRecord).1, [] ++ [("b", Except.ok [])]⟩
    ⟨fun p hp => absurd hp (List.not_mem_nil p), List.nodup_nil⟩
    (Relation.ReflTransGen.single
      (SysStep.submit ⟨⟨[("a", ⟨some [], .COMPLETED, none⟩)]⟩, []⟩ "b"
        (Except.ok []) (by decide)))
    "a" ⟨some [], .COMPLETED, none⟩ (by decide) (by decide)).1

/-- C1: Submit contract.  For a registered scenario set, the submit
endpoint over the volatile backend synchronously stores a `PROCESSING`
record under the generated grading id and returns that id with status
`PROCESSING` together with the scheduled background task, and a status
query against the resulting storage returns `PROCESSING` (never
not-found).  For an arbitrary backend whose initial store raises, the
endpoint returns the 500 `"deferred storage failed"` error, whose payload
carries no background task (no background work is scheduled). -/
theorem submit_contract :
    (∀ (registered : List String) (ssid : String) (data : Submission)
        (gid : String) (s : InMemGradingStorage),
        ssid ∈ registered →
        (deferred_grading_endpoint inMemOps registered ssid data gid
            (.ok ()) s).2
          = .ok (⟨gid, .PROCESSING⟩, ⟨gid, data⟩)
        ∧ (deferred_grading_status_endpoint inMemOps gid
            (deferred_grading_endpoint inMemOps registered ssid data gid
              (.ok ()) s).1).2
          = .ok ⟨gid, .PROCESSING⟩)
    ∧ (∀ (σ : Type) (ops : DeferredGradingStorage σ)
        (registered : List String) (ssid : String) (data : Submission)
        (gid : String) (sched : Except String Unit) (s : σ) (e : PyError),
        ssid ∈ registered →
        (ops.store s gid submitProcessingRecord).2 = .error e →
        deferred_grading_endpoint ops registered ssid data gid sched s
          = ((ops.store s gid submitProcessingRecord).1,
             .error (.internalError "deferred storage failed"))) := by
  constructor
  · intro registered ssid data gid s hreg
    constructor
    · simp [deferred_grading_endpoint, hreg, inMemOps,
        InMemGradingStorage.store]
    · simp [deferred_grading_endpoint, hreg, inMemOps,
        InMemGradingStorage.store, deferred_grading_status_endpoint,
        InMemGradingStorage.state, lookup_insertRec, submitProcessingRecord]
  · intro σ ops registered ssid data gid sched s e hreg hstore
    simp only [deferred_grading_endpoint, if_pos hreg]
    cases hs : ops.store s gid submitProcessingRecord with
    | mk s1 r =>
      rw [hs] at hstore
      cases r with
      | ok u => exact absurd hstore (by simp)
      | error e2 => rfl

/-- Witness for the submit contract, at a registered scenario set
`"x"`, empty submission, id `"g"`: the success path on an empty volatile
backend, and the failure path on the unavailable backend. -/
theorem submit_contract_witness :
    ((deferred_grading_endpoint inMemOps ["x"] "x" ⟨[]⟩ "g" (.ok ())
          ⟨[]⟩).2
        = .ok (⟨"g", .PROCESSING⟩, ⟨"g", ⟨[]⟩⟩)
      ∧ (deferred_grading_status_endpoint inMemOps "g"
          (deferred_grading_endpoint inMemOps ["x"] "x" ⟨[]⟩ "g" (.ok ())
            ⟨[]⟩).1).2
        = .ok ⟨"g", .PROCESSING⟩)
    ∧ deferred_grading_endpoint unavailableStorage ["x"] "x" ⟨[]⟩ "g"
        (.ok ()) ()
      = ((unavailableStorage.store () "g" submitProcessingRecord).1,
         .error (.internalError "deferred storage failed")) :=
  ⟨submit_contract.1 ["x"] "x" ⟨[]⟩ "g" ⟨[]⟩ (by decide),
   submit_contract.2 Unit unavailableStorage ["x"] "x" ⟨[]⟩ "g" (.ok ()) ()
     (.valueError "backend unavailable") (by decide) rfl⟩

/-- C4: Background failure capture.  Whatever the exception text raised by
the grading function, `process_deferred_grading` overwrites the job's
record with `status = FAILED`, empty result and the captured error text,
and a subsequent fetch and status query observe exactly that; the
function's total (non-`Except`) return type reflects that the
`try/except Exception` never lets the exception propagate to any
caller. -/
theorem background_failure_capture :
    ∀ (gid : String) (e : String) (s : InMemGradingStorage),
      (InMemGradingStorage.fetch
          (process_deferred_grading gid (.error e) s) gid).2
        = .ok ⟨some [], .FAILED, some e⟩
      ∧ (deferred_grading_status_endpoint inMemOps gid
          (process_deferred_grading gid (.error e) s)).2
        = .ok ⟨gid, .FAILED⟩ := by
  intro gid e s
  constructor
  · simp [process_deferred_grading, writebackRecord,
      InMemGradingStorage.store, InMemGradingStorage.fetch, lookup_insertRec]
  · simp [process_deferred_grading, writebackRecord,
      InMemGradingStorage.store, InMemGradingStorage.state,
      deferred_grading_status_endpoint, inMemOps, lookup_insertRec]

/-- C10: Serialization round trip.  A non-empty score list survives
`_result_pack` / `_result_unpack` unchanged; the empty list is packed as
the `{"result": null}` payload, on which `_result_unpack` raises
`TypeError` instead of returning an empty list. -/
theorem result_pack_unpack_roundtrip :
    (∀ xs : List SubmissionScore, xs ≠ [] →
        result_unpack (result_pack (some xs)) = .ok xs)
    ∧ result_pack (some []) = .nullPayload
    ∧ result_unpack (result_pack (some []))
        = .error (.typeError "NoneType object is not iterable") := by
  refine ⟨?_, rfl, rfl⟩
  intro xs hxs
  cases xs with
  | nil => exact absurd rfl hxs
  | cons x rest => rfl

/-- Witness for the serialization round trip at a one-element list. -/
theorem result_pack_unpack_roundtrip_witness :
    result_unpack (result_pack (some [⟨"s1", true, []⟩]))
      = .ok [⟨"s1", true, []⟩] :=
  result_pack_unpack_roundtrip.1 [⟨"s1", true, []⟩] (by decide)

/-- C3: Result query outcomes, evaluated.  Over the volatile backend the
four outcomes are realized and pairwise distinguishable: 202
`"grading still progressing"` for a `PROCESSING` record, 500 with the
captured error for a `FAILED` record, the stored score list for a
`COMPLETED` record, and 404 for an absent id.  Over the durable backend,
however, a `FAILED` record written by the background failure path (empty
result, packed as the null payload) makes `fetch` raise `TypeError`, so
the result query returns the generic 500 `"failed to fetch result g"`
instead of surfacing the captured error `"boom"`. -/
theorem result_query_outcomes_eval :
    (deferred_grading_result_endpoint inMemOps "g"
        ⟨[("g", ⟨none, .PROCESSING, none⟩)]⟩).2
      = .error (.accepted "grading still progressing")
    ∧ (deferred_grading_result_endpoint inMemOps "g"
        ⟨[("g", ⟨some [], .FAILED, some "boom"⟩)]⟩).2
      = .error (.internalError "grading failed: boom")
    ∧ (deferred_grading_result_endpoint inMemOps "g"
        ⟨[("g", ⟨some [⟨"s1", true, []⟩], .COMPLETED, none⟩)]⟩).2
      = .ok (some [⟨"s1", true, []⟩])
    ∧ (deferred_grading_result_endpoint inMemOps "g" ⟨[]⟩).2
      = .error (.notFound "grading id not found: g")
    ∧ (deferred_grading_result_endpoint pgOps "g"
        ((PostGresGradingStorage.store ⟨true, []⟩ "g"
            (writebackRecord (.error "boom"))).1)).2
      = .error (.internalError "failed to fetch result g") := by
  refine ⟨by decide, by decide, by decide, by decide, by decide⟩

/-- C5: Store/fetch round trip, evaluated.  On the volatile backend,
store is an upsert that reports no error on first write or overwrite and
fetch returns the exact stored record (last write wins), while fetch of
an absent id raises `KeyError`.  On the durable backend, store also
reports no error, and a record with a non-empty result round-trips, but
a stored record with an empty result (every `FAILED` record the system
writes) cannot be fetched back: the null result payload makes
`_result_unpack` raise `TypeError`. -/
theorem store_fetch_roundtrip_eval :
    ((InMemGradingStorage.store ⟨[]⟩ "g" ⟨some [], .FAILED, some "boom"⟩).2
        = .ok ()
      ∧ (InMemGradingStorage.fetch
          (InMemGradingStorage.store ⟨[]⟩ "g"
            ⟨some [], .FAILED, some "boom"⟩).1 "g").2
        = .ok ⟨some [], .FAILED, some "boom"⟩)
    ∧ (InMemGradingStorage.fetch
        (InMemGradingStorage.store
          (InMemGradingStorage.store ⟨[]⟩ "g"
            ⟨some [], .FAILED, some "boom"⟩).1
          "g" ⟨some [⟨"s1", true, []⟩], .COMPLETED, none⟩).1 "g").2
      = .ok ⟨some [⟨"s1", true, []⟩], .COMPLETED, none⟩
    ∧ (InMemGradingStorage.fetch ⟨[]⟩ "g").2 = .error (.keyError "g")
    ∧ ((PostGresGradingStorage.store ⟨true, []⟩ "g"
          ⟨some [], .FAILED, some "boom"⟩).2 = .ok ()
      ∧ (PostGresGradingStorage.fetch
          (PostGresGradingStorage.store ⟨true, []⟩ "g"
            ⟨some [⟨"s1", true, []⟩], .COMPLETED, none⟩).1 "g").2
        = .ok ⟨some [⟨"s1", true, []⟩], .COMPLETED, none⟩)
    ∧ (PostGresGradingStorage.fetch
        (PostGresGradingStorage.store ⟨true, []⟩ "g"
          ⟨some [], .FAILED, some "boom"⟩).1 "g").2
      = .error (.typeError "NoneType object is not iterable") := by
  refine ⟨⟨by decide, by decide⟩, by decide, by decide,
    ⟨by decide, by decide⟩, by decide⟩

/-- C6 counterexample: when the grading function raises an exception whose
text is empty (e.g. a bare `ValueError()`), the background write-back
stores a `FAILED` record whose error description is the empty string, so
the record written for id `"g"` violates the claimed invariant's
"non-empty description" requirement. -/
theorem status_payload_claim_counterexample :
    lookupRec (process_deferred_grading "g" (.error "") ⟨[]⟩).storage "g"
      = some (writebackRecord (.error ""))
    ∧ ¬ statusPayloadClaim (writebackRecord (.error "")) := by
  constructor
  · decide
  · intro h
    exact (h.2.1 rfl).2.2 rfl

/-- C6 amended: every record the system writes — the submit path's
initial `PROCESSING` record, its scheduling-failure `FAILED` record, and
the background write-back's `COMPLETED`/`FAILED` records — satisfies the
amended status-payload invariant. -/
theorem status_payload_invariant_amended :
    ∀ w : SystemWrite, statusPayloadAmended w.record := by
  intro w
  cases w with
  | submitInit =>
    simp [statusPayloadAmended, SystemWrite.record, submitProcessingRecord]
  | submitScheduleFailure msg =>
    simp [statusPayloadAmended, SystemWrite.record, submitFailureRecord]
  | backgroundOutcome o =>
    cases o with
    | ok res =>
      simp [statusPayloadAmended, SystemWrite.record, writebackRecord]
    | error e =>
      simp [statusPayloadAmended, SystemWrite.record, writebackRecord]

theorem pruneGo_lookup (ids : List String) (st : InMemGradingStorage)
    (c : Nat) (g : String) :
    lookupRec (pruneGo ids st c).1.storage g =
      if g ∈ ids then none else lookupRec st.storage g := by
  induction ids generalizing st c with
  | nil => simp [pruneGo]
  | cons h rest ih =>
    cases hcb : containsRec st.storage h with
    | true =>
      by_cases hg : g ∈ rest
      · simp [pruneGo, hcb, ih, hg, List.mem_cons]
      · by_cases hgh : g = h
        · subst hgh
          simp [pruneGo, hcb, ih, hg, lookup_eraseRec, List.mem_cons]
        · simp [pruneGo, hcb, ih, hg, hgh, lookup_eraseRec, List.mem_cons]
    | false =>
      by_cases hg : g ∈ rest
      · simp [pruneGo, hcb, ih, hg, List.mem_cons]
      · by_cases hgh : g = h
        · subst hgh
          have hnone : lookupRec st.storage g = none := by
            cases hl : lookupRec st.storage g with
            | none => rfl
            | some v => simp [containsRec, hl] at hcb
          simp [pruneGo, hcb, ih, hg, List.mem_cons, hnone]
        · simp [pruneGo, hcb, ih, hg, hgh, List.mem_cons]

theorem pruneGo_count :
    ∀ (ids : List String), ids.Nodup → ∀ (st : InMemGradingStorage) (c : Nat),
      (pruneGo ids st c).2 =
        c + (ids.filter (fun g => containsRec st.storage g)).length := by
  intro ids
  induction ids with
  | nil =>
    intro _ st c
    simp [pruneGo]
  | cons h rest ih =>
    intro hnd st c
    have hnd2 : rest.Nodup := (List.nodup_cons.mp hnd).2
    have hh : h ∉ rest := (List.nodup_cons.mp hnd).1
    cases hcb : containsRec st.storage h with
    | true =>
      have hfilter :
          rest.filter (fun g => containsRec (eraseRec st.storage h) g)
            = rest.filter (fun g => containsRec st.storage g) := by
        apply List.filter_congr
        intro x hx
        have hxh : ¬ x = h := fun he => hh (he ▸ hx)
        simp [contains_eraseRec, hxh]
      have hgo : (pruneGo (h :: rest) st c).2
          = (pruneGo rest ⟨eraseRec st.storage h⟩ (c + 1)).2 := by
        simp [pruneGo, hcb]
      rw [hgo, ih hnd2]
      have hst : (⟨eraseRec st.storage h⟩ : InMemGradingStorage).storage
          = eraseRec st.storage h := rfl
      rw [hst, hfilter]
      simp [List.filter_cons, hcb]
      omega
    | false =>
      have hgo : (pruneGo (h :: rest) st c).2 = (pruneGo rest st c).2 := by
        simp [pruneGo, hcb]
      rw [hgo, ih hnd2]
      simp [List.filter_cons, hcb]

/-- C7: Prune count and idempotence over the volatile backend.  For a
duplicate-free batch, prune deletes exactly the supplied ids that are
present, silently skips absent ids, returns the count of ids that
actually existed, and leaves every non-supplied id unchanged; pruning the
same single id twice returns 0 the second time, and pruning a batch of 3
distinct ids of which 1 is absent returns 2. -/
theorem prune_contract :
    (∀ (s : InMemGradingStorage) (ids : List String), ids.Nodup →
        (s.prune (.inr ids)).2
          = .ok ((ids.filter (fun g => containsRec s.storage g)).length)
        ∧ (∀ g ∈ ids, lookupRec ((s.prune (.inr ids)).1).storage g = none)
        ∧ (∀ g, g ∉ ids →
            lookupRec ((s.prune (.inr ids)).1).storage g
              = lookupRec s.storage g))
    ∧ (∀ (s : InMemGradingStorage) (g : String),
        (((s.prune (.inl g)).1).prune (.inl g)).2 = .ok 0)
    ∧ (∀ (s : InMemGradingStorage) (a b c : String), [a, b, c].Nodup →
        containsRec s.storage a = true → containsRec s.storage b = true →
        containsRec s.storage c = false →
        (s.prune (.inr [a, b, c])).2 = .ok 2) := by
  refine ⟨?_, ?_, ?_⟩
  · intro s ids hnd
    refine ⟨?_, ?_, ?_⟩
    · simp [InMemGradingStorage.prune, pruneGo_count ids hnd s 0]
    · intro g hg
      simp [InMemGradingStorage.prune, pruneGo_lookup, hg]
    · intro g hg
      simp [InMemGradingStorage.prune, pruneGo_lookup, hg]
  · intro s g
    cases hcb : containsRec s.storage g with
    | true =>
      have h2 : containsRec (eraseRec s.storage g) g = false := by
        simp [contains_eraseRec]
      simp [InMemGradingStorage.prune, pruneGo, hcb, h2]
    | false =>
      simp [InMemGradingStorage.prune, pruneGo, hcb]
  · intro s a b c hnd ha hb hc
    have hcount := pruneGo_count [a, b, c] hnd s 0
    simp [List.filter_cons, ha, hb, hc] at hcount
    simp [InMemGradingStorage.prune, hcount]

/-- Witness for the prune contract: a backend holding ids `"a"` and `"b"`;
pruning the batch `["a", "b", "c"]` (with `"c"` absent) returns 2, and
pruning `"a"` a second time returns 0. -/
theorem prune_contract_witness :
    ((⟨[("a", submitProcessingRecord), ("b", submitProcessingRecord)]⟩ :
        InMemGradingStorage).prune (.inr ["a", "b", "c"])).2 = .ok 2
    ∧ ((((⟨[("a", submitProcessingRecord)]⟩ :
        InMemGradingStorage).prune (.inl "a")).1).prune (.inl "a")).2
      = .ok 0 :=
  ⟨prune_contract.2.2
      ⟨[("a", submitProcessingRecord), ("b", submitProcessingRecord)]⟩
      "a" "b" "c" (by decide) (by decide) (by decide) (by decide),
   prune_contract.2.1 ⟨[("a", submitProcessingRecord)]⟩ "a"⟩

/-- C8 counterexample: on a durable backend whose connection pool has not
been established, `valid` does not return a boolean — `self.pool` is
`None`, so `self.pool.acquire()` raises `AttributeError`. -/
theorem valid_unconnected_raises :
    ((⟨false, []⟩ : PostGresGradingStorage).valid "g").2
      = .error (.attributeError "NoneType object has no attribute acquire") :=
  rfl

/-- C8 amended: `valid` returns true exactly when the id is present and
never fails on the volatile backend, and likewise on the durable backend
whenever the connection pool is already open; on a durable backend with
no open pool, `valid` raises `AttributeError` instead of connecting. -/
theorem valid_contract_amended :
    (∀ (s : InMemGradingStorage) (gid : String),
        (s.valid gid).2 = .ok (containsRec s.storage gid))
    ∧ (∀ (s : PostGresGradingStorage) (gid : String), s.pool = true →
        (s.valid gid).2 = .ok (containsRec s.db gid))
    ∧ (∀ (s : PostGresGradingStorage) (gid : String), s.pool = false →
        (s.valid gid).2
          = .error (.attributeError
              "NoneType object has no attribute acquire")) := by
  refine ⟨fun s gid => rfl, ?_, ?_⟩
  · intro s gid hp
    simp [PostGresGradingStorage.valid, hp]
  · intro s gid hp
    simp [PostGresGradingStorage.valid, hp]

/-- Witness for the amended `valid` contract: a connected durable backend
holding `"a"`, and an unconnected one. -/
theorem valid_contract_amended_witness :
    ((⟨true, [("a", ⟨"processing", .nullPayload, none⟩)]⟩ :
        PostGresGradingStorage).valid "a").2
      = .ok (containsRec [("a", (⟨"processing", .nullPayload, none⟩ : PGRow))]
          "a")
    ∧ ((⟨false, []⟩ : PostGresGradingStorage).valid "a").2
      = .error (.attributeError "NoneType object has no attribute acquire") :=
  ⟨valid_contract_amended.2.1
      ⟨true, [("a", ⟨"processing", .nullPayload, none⟩)]⟩ "a" rfl,
   valid_contract_amended.2.2 ⟨false, []⟩ "a" rfl⟩

/-- C9 counterexample: `prune` on the durable backend does not establish
the connection pool before proceeding — with no pool open and a non-empty
batch it raises `AttributeError` instead of connecting. -/
theorem prune_unconnected_raises :
    ((⟨false, [("a", ⟨"processing", .nullPayload, none⟩)]⟩ :
        PostGresGradingStorage).prune (.inl "a")).2
      = .error (.attributeError "NoneType object has no attribute acquire") :=
  rfl

/-- C9 amended: on the durable backend, `fetch`, `state` and `store`
lazily establish the connection pool — invoked with no pool open they
behave exactly as when invoked with the pool open (and `store` leaves the
pool open) — whereas `valid` and `prune` (on a non-empty batch) have no
such guard and raise `AttributeError` when no pool is open; `prune` of an
empty batch returns 0 before touching the pool. -/
theorem lazy_connect_amended :
    (∀ (db : List (String × PGRow)) (gid : String),
        PostGresGradingStorage.fetch ⟨false, db⟩ gid
          = PostGresGradingStorage.fetch ⟨true, db⟩ gid)
    ∧ (∀ (db : List (String × PGRow)) (gid : String),
        PostGresGradingStorage.state ⟨false, db⟩ gid
          = PostGresGradingStorage.state ⟨true, db⟩ gid)
    ∧ (∀ (db : List (String × PGRow)) (gid : String)
        (data : DeferredGradingResult),
        PostGresGradingStorage.store ⟨false, db⟩ gid data
          = PostGresGradingStorage.store ⟨true, db⟩ gid data)
    ∧ (∀ (db : List (String × PGRow)) (gid : String)
        (data : DeferredGradingResult),
        ((⟨false, db⟩ : PostGresGradingStorage).store gid data).1.pool = true)
    ∧ (∀ (db : List (String × PGRow)) (ids : List String), ids ≠ [] →
        ((⟨false, db⟩ : PostGresGradingStorage).prune (.inr ids)).2
          = .error (.attributeError
              "NoneType object has no attribute acquire"))
    ∧ (∀ (db : List (String × PGRow)),
        ((⟨false, db⟩ : PostGresGradingStorage).prune (.inr [])).2 = .ok 0)
    ∧ (∀ (db : List (String × PGRow)) (gid : String),
        ((⟨false, db⟩ : PostGresGradingStorage).valid gid).2
          = .error (.attributeError
              "NoneType object has no attribute acquire")) := by
  refine ⟨fun db gid => rfl, fun db gid => rfl, fun db gid data => rfl,
    fun db gid data => rfl, ?_, fun db => rfl, fun db gid => rfl⟩
  intro db ids hne
  cases ids with
  | nil => exact absurd rfl hne
  | cons i rest => rfl

/-- Witness for the amended lazy-connect contract: fetching a stored id
from an unconnected backend equals fetching it from a connected one, and
a non-empty prune on an unconnected backend raises. -/
theorem lazy_connect_amended_witness :
    PostGresGradingStorage.fetch
        ⟨false, [("a", ⟨"processing", .nullPayload, none⟩)]⟩ "a"
      = PostGresGradingStorage.fetch
        ⟨true, [("a", ⟨"processing", .nullPayload, none⟩)]⟩ "a"
    ∧ ((⟨false, []⟩ : PostGresGradingStorage).prune (.inr ["a", "b"])).2
      = .error (.attributeError "NoneType object has no attribute acquire") :=
  ⟨lazy_connect_amended.1 [("a", ⟨"processing", .nullPayload, none⟩)] "a",
   lazy_connect_amended.2.2.2.2.1 [] ["a", "b"] (by decide)⟩
